import Mathlib

/-!
Verification of the access-control and brute-force-defense subsystem of the
serverless file-sharing system (`src/lambda/accessControl.js`).

The JavaScript source is shallowly embedded as pure Lean functions:

* DynamoDB tables are modelled per key: the attempts table entry for one
  `(groupId, ipAddress)` pair is an `Option AccessAttempt`, the file-group,
  permission and IP-restriction records are `Option`-valued fields of an
  `Env` record, and a write is a returned updated value.
* Timestamps are `Nat` milliseconds since the epoch (`Date.getTime()`);
  `toISOString` round-trips through the same instant, so a stored timestamp
  is kept as the `Nat` instant itself.
* `crypto.pbkdf2Sync` is external library code; it is passed in as an
  explicit function argument `pb : String → String → String` (password and
  salt to hex digest), and the random salt from `crypto.randomBytes` is an
  explicit argument as well, so every definition stays executable.
* JavaScript truthiness on the string fields that matter (`password`,
  `accessPermissionId`, `ipAddress`, `userId`, `action`) is modelled by
  treating the empty string as the falsy value (covering both `null` and
  `""` inputs); nullable record fields are `Option`s.
-/

/-- `MAX_LOGIN_ATTEMPTS`: lockout threshold. -/
def MAX_LOGIN_ATTEMPTS : Nat := 5

/-- `LOCKOUT_DURATION`: 30 minutes in milliseconds. -/
def LOCKOUT_DURATION : Nat := 30 * 60 * 1000

/-- `hashPassword(password, salt)` result. -/
structure HashResult where
  hash : String
  salt : String
deriving Repr, DecidableEq

/-- `hashPassword`: when no salt is given, a fresh random one
(`crypto.randomBytes(16).toString('hex')`) is used, passed here as
`freshSalt`; the PBKDF2 derivation
`crypto.pbkdf2Sync(password, salt, 10000, 64, 'sha512').toString('hex')` is
external library code, passed as the function `pb`. -/
def hashPassword (pb : String → String → String) (password : String)
    (salt : Option String) (freshSalt : String) : HashResult :=
  let s := salt.getD freshSalt
  { hash := pb password s, salt := s }

/-- `verifyPassword(password, hash, salt)`: re-derive with the same
parameters and compare (`hash === hashVerify`). -/
def verifyPassword (pb : String → String → String) (password hash salt : String) : Bool :=
  hash == pb password salt

/-- `crypto.pbkdf2Sync` with its exception behaviour made explicit: it throws
a `TypeError` when the salt argument is not a string (`null`/`undefined`);
with a string salt it returns the digest `pb password salt`. -/
def pbkdf2SyncE (pb : String → String → String) (password : String)
    (salt : Option String) : Except String String :=
  match salt with
  | some s => Except.ok (pb password s)
  | none => Except.error ("TypeError")

/-- `verifyPassword` with the exception flow explicit: the body has no
try/catch, so an exception raised by the derivation propagates to the
caller; only when the derivation returns is the string comparison made. -/
def verifyPasswordE (pb : String → String → String) (password hash : String)
    (salt : Option String) : Except String Bool :=
  match pbkdf2SyncE pb password salt with
  | Except.ok hashVerify => Except.ok (hash == hashVerify)
  | Except.error e => Except.error e

/-- The base64 alphabet used by `Buffer.prototype.toString('base64')`. -/
def b64Alphabet : List Char :=
  ("ABCDEFGHIJKLMNOPQRSTUVWXYZabcdefghijklmnopqrstuvwxyz0123456789+/").toList

/-- Character of the base64 alphabet at a 6-bit index. -/
def b64Char (n : Nat) : Char := b64Alphabet.getD n ('A')

/-- Standard base64 of a byte list, three bytes to four characters with
`=` padding. -/
def base64Chunks : List Nat → String
  | [] => ("")
  | [a] =>
      String.mk [b64Char (a / 4), b64Char (a % 4 * 16), ('='), ('=')]
  | [a, b] =>
      String.mk [b64Char (a / 4), b64Char (a % 4 * 16 + b / 16),
                 b64Char (b % 16 * 4), ('=')]
  | a :: b :: c :: rest =>
      String.mk [b64Char (a / 4), b64Char (a % 4 * 16 + b / 16),
                 b64Char (b % 16 * 4 + c / 64), b64Char (c % 64)] ++
        base64Chunks rest

/-- `Buffer.from(password).toString('base64')`: base64 of the UTF-8 bytes
(`String.utf8EncodeChar` is the encoder `String.toUTF8` itself is built on). -/
def base64OfString (s : String) : String :=
  base64Chunks ((s.data.flatMap String.utf8EncodeChar).map UInt8.toNat)

/-- Longest decimal-digit prefix of `cs` as a number; `none` when there is no
leading digit (`parseInt` returns `NaN`). -/
def digitsValue (cs : List Char) : Option Nat :=
  let ds := cs.takeWhile Char.isDigit
  if ds.isEmpty then none
  else some (ds.foldl (fun a c => a * 10 + (c.toNat - ('0').toNat)) 0)

/-- JavaScript `parseInt(s, 10)`: skip leading whitespace, optional sign,
then the longest digit prefix; `none` models `NaN`. -/
def parseInt10 (s : String) : Option Int :=
  let cs := s.toList.dropWhile
    (fun c => c == (' ') || c == ('\t') || c == ('\n') || c == ('\r'))
  match cs with
  | '-' :: rest => (digitsValue rest).map (fun n => -(n : Int))
  | '+' :: rest => (digitsValue rest).map (fun n => (n : Int))
  | _ => (digitsValue cs).map (fun n => (n : Int))

/-- JavaScript `x >>> 0` (`ToUint32`) on an exact integer. -/
def toUint32 (x : Int) : Nat := (x % (2 ^ 32 : Int)).toNat

/-- JavaScript `ToInt32` on an exact integer. -/
def toInt32 (x : Int) : Int :=
  let u : Nat := toUint32 x
  if u < 2 ^ 31 then (u : Int) else (u : Int) - 2 ^ 32

/-- JavaScript `a << b` on exact integers: both operands converted to 32-bit,
shift count taken mod 32. -/
def jsShl (a b : Int) : Int := toInt32 (toInt32 a * 2 ^ (toUint32 b % 32))

/-- JavaScript `a & b` on exact integers: bitwise AND of the 32-bit images. -/
def jsAnd (a b : Int) : Int := toInt32 (Int.ofNat (Nat.land (toUint32 a) (toUint32 b)))

/-- Split on a single-character separator (JavaScript `s.split('.')` and
`s.split('/')`), as a plain list recursion: `acc` collects the current field
in reverse. -/
def splitOnCharAux (sep : Char) : List Char → List Char → List String
  | [], acc => [String.mk acc.reverse]
  | c :: cs, acc =>
      if c == sep then String.mk acc.reverse :: splitOnCharAux sep cs []
      else splitOnCharAux sep cs (c :: acc)

/-- JavaScript `s.split(sep)` for a one-character separator. -/
def splitOnChar (sep : Char) (s : String) : List String :=
  splitOnCharAux sep s.data []

/-- `ip2long(ip)`: fold the first four dot-separated fields as base-256
digits (`result * 256 + parseInt(parts[i], 10)`); a `NaN` field poisons the
sum and the final `>>> 0` then yields 0. -/
def ip2long (ip : String) : Nat :=
  let parts := splitOnChar ('.') ip
  let total : Option Int :=
    (List.range 4).foldl
      (fun acc i =>
        match acc with
        | none => none
        | some r =>
            match (parts.get? i).bind parseInt10 with
            | none => none
            | some v => some (r * 256 + v))
      (some 0)
  match total with
  | none => 0
  | some r => toUint32 r

/-- `isIpInCidr(ip, cidr)`: split at `/`, convert both addresses with
`ip2long`, build the prefix mask `-1 << (32 - bits)` under JavaScript 32-bit
shift semantics (a `NaN` bit count shifts by `ToUint32(NaN) & 31 = 0`), and
compare the masked values. -/
def isIpInCidr (ip cidr : String) : Bool :=
  let parts := splitOnChar ('/') cidr
  let subnet := parts.headD ("")
  let ipNum : Int := Int.ofNat (ip2long ip)
  let netNum : Int := Int.ofNat (ip2long subnet)
  let mask : Int :=
    match (parts.get? 1).bind parseInt10 with
    | some b => jsShl (-1) (32 - b)
    | none => jsShl (-1) 0
  jsAnd ipNum mask == jsAnd netNum mask

/-- Tokens of the wildcard regex the code builds from a rule: `.` is escaped
to a literal, `*` becomes `.*` (the `none` token); the rule's other
characters (digits and letters in IP-shaped rules) are regex literals. -/
def wildcardTokens (rule : String) : List (Option Char) :=
  rule.toList.map (fun c => if c == ('*') then none else some c)

/-- Anchored regex match of the token list against the characters, with
explicit fuel; the `.` of the generated `.*` matches any character except a
newline.  Every recursive call shrinks `tokens.length + chars.length`, and
the fuel passed by `wildcardMatch` strictly dominates that sum, so the fuel
is never exhausted. -/
def reMatchF : Nat → List (Option Char) → List Char → Bool
  | 0, _, _ => false
  | _ + 1, [], xs => xs.isEmpty
  | f + 1, some c :: ps, xs =>
      match xs with
      | [] => false
      | x :: xs' => c == x && reMatchF f ps xs'
  | f + 1, none :: ps, xs =>
      reMatchF f ps xs ||
        (match xs with
         | [] => false
         | x :: xs' => x != ('\n') && reMatchF f (none :: ps) xs')

/-- `new RegExp('^' + pattern + '$').test(ipAddress)` for a wildcard rule. -/
def wildcardMatch (rule ip : String) : Bool :=
  reMatchF (rule.length + ip.length + 1) (wildcardTokens rule) ip.toList

/-- One rule of the `checkIpRestriction` matching callback: exact string
equality first, then CIDR if the rule contains `/`, then wildcard if it
contains `*`; otherwise the rule does not match. -/
def ipMatchesRule (ipAddress allowedIp : String) : Bool :=
  if allowedIp == ipAddress then true
  else if allowedIp.data.contains ('/') then isIpInCidr ipAddress allowedIp
  else if allowedIp.data.contains ('*') then wildcardMatch allowedIp ipAddress
  else false

/-- One row of the IP_RESTRICTIONS_TABLE, as written by
`updateIpRestrictions`. -/
structure IpRestriction where
  permissionId : String
  enabled : Bool
  allowedIps : List String
  updatedAt : Nat
deriving Repr, DecidableEq

/-- The rule-evaluation part of `checkIpRestriction`: no record or a
disabled record or an empty allow-list permits everyone; otherwise some rule
must match. -/
def checkIpRules (restriction : Option IpRestriction) (ipAddress : String) : Bool :=
  match restriction with
  | none => true
  | some r =>
      if r.enabled = false then true
      else if r.allowedIps.isEmpty then true
      else r.allowedIps.any (fun allowedIp => ipMatchesRule ipAddress allowedIp)

/-- One row of the ACCESS_ATTEMPTS_TABLE, as built by `recordFailedAttempt`. -/
structure AccessAttempt where
  attemptId : String
  groupId : String
  ipAddress : String
  attemptCount : Nat
  firstAttempt : Nat
  lastAttempt : Nat
  isLocked : Bool
  lockExpiry : Option Nat
deriving Repr, DecidableEq

/-- `recordFailedAttempt(groupId, ipAddress)`: load-or-create the keyed row,
increment `attemptCount`, stamp `lastAttempt`, and lock with
`lockExpiry = now + LOCKOUT_DURATION` once the count reaches the threshold
while not already locked.  `stored` is the current table row for the key. -/
def recordFailedAttempt (stored : Option AccessAttempt) (groupId ipAddress : String)
    (now : Nat) : AccessAttempt :=
  let current :=
    match stored with
    | some a => a
    | none =>
        { attemptId := groupId ++ (":") ++ ipAddress
          groupId := groupId
          ipAddress := ipAddress
          attemptCount := 0
          firstAttempt := now
          lastAttempt := now
          isLocked := false
          lockExpiry := none }
  let current := { current with attemptCount := current.attemptCount + 1, lastAttempt := now }
  if MAX_LOGIN_ATTEMPTS ≤ current.attemptCount ∧ current.isLocked = false then
    { current with isLocked := true, lockExpiry := some (now + LOCKOUT_DURATION) }
  else
    current

/-- `resetAttempts(groupId, ipAddress)`: delete the keyed row. -/
def resetAttempts (_stored : Option AccessAttempt) : Option AccessAttempt := none

/-- One row of the FILE_GROUPS_TABLE, as read by `verifyFileAccess`. -/
structure FileGroup where
  groupId : String
  isPasswordProtected : Bool
  accessPermissionId : String
  expirationDate : Nat
deriving Repr, DecidableEq

/-- One row of the ACCESS_PERMISSIONS_TABLE.  A salted record has both
`passwordHash` and `passwordSalt`; a legacy record has only `passwordHash`
(a base64 encoding of the original password). -/
structure AccessInfo where
  permissionId : String
  expirationDate : Nat
  passwordHash : Option String
  passwordSalt : Option String
deriving Repr, DecidableEq

/-- The table rows `verifyFileAccess` touches: the attempts row for the
`(groupId, ipAddress)` key, the file-group row, the permission row the group
points to, and the IP-restriction row for that permission. -/
structure Env where
  attempt : Option AccessAttempt
  group : Option FileGroup
  accessInfo : Option AccessInfo
  ipRestriction : Option IpRestriction
deriving Repr, DecidableEq

/-- `checkIpRestriction(groupId, ipAddress)`: a missing group row or a falsy
`accessPermissionId` permits everyone; otherwise the restriction row for the
permission id is evaluated by `checkIpRules`. -/
def checkIpRestriction (group : Option FileGroup) (restriction : Option IpRestriction)
    (ipAddress : String) : Bool :=
  match group with
  | none => true
  | some g =>
      if g.accessPermissionId == ("") then true
      else checkIpRules restriction ipAddress

/-- The spec's `isAllowed(ip, rules)` view of the rule evaluation: an enabled
restriction carrying exactly `rules`. -/
def isAllowed (ip : String) (rules : List String) : Bool :=
  checkIpRules (some { permissionId := ("p"), enabled := true,
                       allowedIps := rules, updatedAt := 0 }) ip

def MSG_LOCKED : String := "アクセスがロックされています"

def MSG_IP_NOT_ALLOWED : String := "このIPアドレスからのアクセスは許可されていません"

def MSG_GROUP_NOT_FOUND : String := "ファイルグループが見つかりません"

def MSG_NOT_PROTECTED : String := "パスワード保護されていません"

def MSG_PERMISSION_NOT_FOUND : String := "アクセス権限情報が見つかりません"

def MSG_EXPIRED : String := "このリンクは有効期限が切れています"

def MSG_PASSWORD_REQUIRED : String := "パスワードが必要です"

def MSG_ALLOWED : String := "アクセスが許可されました"

def MSG_WRONG_PASSWORD : String := "パスワードが正しくありません"

/-- The result object `verifyFileAccess` returns; fields that a given return
site does not set are `none`. -/
structure VerifyResult where
  success : Bool
  message : String
  lockExpiry : Option Nat
  remainingAttempts : Option Int
  isLocked : Option Bool
  groupInfo : Option (String × Nat)
deriving Repr, DecidableEq

/-- A `verifyFileAccess` call's result together with the final state of the
rows it may write: the attempts row and the permission row. -/
structure VerifyOutcome where
  result : VerifyResult
  attemptAfter : Option AccessAttempt
  accessInfoAfter : Option AccessInfo
deriving Repr, DecidableEq

/-- A denial carrying only a message and a remaining-attempts count. -/
def denyResult (message : String) (remaining : Int) : VerifyResult :=
  { success := false, message := message, lockExpiry := none,
    remainingAttempts := some remaining, isLocked := none, groupInfo := none }

/-- A success carrying the group summary. -/
def allowResult (message : String) (group : FileGroup) : VerifyResult :=
  { success := true, message := message, lockExpiry := none,
    remainingAttempts := none, isLocked := none,
    groupInfo := some (group.groupId, group.expirationDate) }

/-- The password-mismatch exit of `verifyFileAccess`: record the failed
attempt against the current attempts row and report the updated lock state. -/
def verifyFailOutcome (store : Option AccessAttempt) (accessInfo? : Option AccessInfo)
    (groupIdArg ipAddress : String) (now : Nat) : VerifyOutcome :=
  let failedAttempt := recordFailedAttempt store groupIdArg ipAddress now
  { result := { success := false, message := MSG_WRONG_PASSWORD,
                lockExpiry := failedAttempt.lockExpiry,
                remainingAttempts :=
                  some ((MAX_LOGIN_ATTEMPTS : Int) - (failedAttempt.attemptCount : Int)),
                isLocked := some failedAttempt.isLocked, groupInfo := none },
    attemptAfter := some failedAttempt, accessInfoAfter := accessInfo? }

/-- Body of `verifyFileAccess` after the lock check.  `fetched` is the
attempts row read at the top of the function — the source still reads it for
the password-required remaining-attempts computation even after a
lapsed-lock reset — while `store` is the current attempts-table row (cleared
when a lapsed lock was just reset), which `recordFailedAttempt` re-reads. -/
def verifyFileAccessBody (pb : String → String → String) (freshSalt : String)
    (persistOk : Bool) (store fetched : Option AccessAttempt)
    (group? : Option FileGroup) (accessInfo? : Option AccessInfo)
    (ipRestriction : Option IpRestriction)
    (groupIdArg password ipAddress : String) (now : Nat) : VerifyOutcome :=
  if checkIpRestriction group? ipRestriction ipAddress = false then
    { result := denyResult MSG_IP_NOT_ALLOWED (MAX_LOGIN_ATTEMPTS : Int),
      attemptAfter := store, accessInfoAfter := accessInfo? }
  else
    match group? with
    | none =>
        { result := denyResult MSG_GROUP_NOT_FOUND (MAX_LOGIN_ATTEMPTS : Int),
          attemptAfter := store, accessInfoAfter := accessInfo? }
    | some group =>
        if group.isPasswordProtected = false then
          { result := allowResult MSG_NOT_PROTECTED group,
            attemptAfter := store, accessInfoAfter := accessInfo? }
        else
          match accessInfo? with
          | none =>
              { result := denyResult MSG_PERMISSION_NOT_FOUND (MAX_LOGIN_ATTEMPTS : Int),
                attemptAfter := store, accessInfoAfter := accessInfo? }
          | some accessInfo =>
              if accessInfo.expirationDate < now then
                { result := denyResult MSG_EXPIRED (MAX_LOGIN_ATTEMPTS : Int),
                  attemptAfter := store, accessInfoAfter := accessInfo? }
              else if password == ("") then
                { result := denyResult MSG_PASSWORD_REQUIRED
                    (match fetched with
                     | some a => (MAX_LOGIN_ATTEMPTS : Int) - (a.attemptCount : Int)
                     | none => (MAX_LOGIN_ATTEMPTS : Int)),
                  attemptAfter := store, accessInfoAfter := accessInfo? }
              else
                match accessInfo.passwordHash, accessInfo.passwordSalt with
                | some h, some s =>
                    if verifyPassword pb password h s then
                      { result := allowResult MSG_ALLOWED group,
                        attemptAfter := resetAttempts store,
                        accessInfoAfter := accessInfo? }
                    else
                      verifyFailOutcome store accessInfo? groupIdArg ipAddress now
                | some h, none =>
                    if base64OfString password == h then
                      let upgraded := hashPassword pb password none freshSalt
                      { result := allowResult MSG_ALLOWED group,
                        attemptAfter := resetAttempts store,
                        accessInfoAfter := some
                          (if persistOk then
                            { accessInfo with passwordHash := some upgraded.hash,
                                              passwordSalt := some upgraded.salt }
                           else accessInfo) }
                    else
                      verifyFailOutcome store accessInfo? groupIdArg ipAddress now
                | none, _ =>
                    verifyFailOutcome store accessInfo? groupIdArg ipAddress now

/-- `verifyFileAccess(groupId, password, ipAddress)` over the table rows in
`env` at instant `now`.  `pb` is the external PBKDF2 derivation, `freshSalt`
the random salt consumed if a legacy hash is upgraded, and `persistOk`
whether that best-effort upgrade write succeeds. -/
def verifyFileAccess (pb : String → String → String) (freshSalt : String)
    (persistOk : Bool) (env : Env) (groupIdArg password ipAddress : String)
    (now : Nat) : VerifyOutcome :=
  match env.attempt with
  | some attempt =>
      if attempt.isLocked = true then
        if now < attempt.lockExpiry.getD 0 then
          { result := { success := false, message := MSG_LOCKED,
                        lockExpiry := attempt.lockExpiry,
                        remainingAttempts := some 0, isLocked := some true,
                        groupInfo := none },
            attemptAfter := env.attempt, accessInfoAfter := env.accessInfo }
        else
          verifyFileAccessBody pb freshSalt persistOk (resetAttempts env.attempt)
            env.attempt env.group env.accessInfo env.ipRestriction
            groupIdArg password ipAddress now
      else
        verifyFileAccessBody pb freshSalt persistOk env.attempt env.attempt
          env.group env.accessInfo env.ipRestriction groupIdArg password ipAddress now
  | none =>
      verifyFileAccessBody pb freshSalt persistOk none none
        env.group env.accessInfo env.ipRestriction groupIdArg password ipAddress now

/-- Input object of `updateIpRestrictions`; absent fields are `none`. -/
structure IpRestrictionInput where
  enabled : Option Bool
  allowedIps : Option (List String)
deriving Repr, DecidableEq

/-- `updateIpRestrictions(permissionId, ipRestrictions)`: write the row with
the given fields verbatim, defaulting `enabled` to `false` and `allowedIps`
to the empty list. -/
def updateIpRestrictions (permissionId : String) (input : IpRestrictionInput)
    (now : Nat) : IpRestriction :=
  { permissionId := permissionId, enabled := input.enabled.getD false,
    allowedIps := input.allowedIps.getD [], updatedAt := now }

/-- JavaScript object assignment `obj[k] = v` on an insertion-ordered
association list: overwrite the first binding of `k` in place, else append. -/
def jsAssign : List (String × String) → String → String → List (String × String)
  | [], k, v => [(k, v)]
  | p :: rest, k, v => if p.1 == k then (k, v) :: rest else p :: jsAssign rest k v

/-- `recordAccessLog(groupId, fileId, userId, ipAddress, action, metadata)`:
the persisted entry spreads `metadata` after the base fields (so metadata
keys are kept verbatim and may override base fields) and then adds `fileId`
when given.  `rand` is the `Math.random().toString(36).substring(2, 15)`
suffix of the log id; timestamps are stored as the instant `now`. -/
def recordAccessLog (groupId : String) (fileId : Option String)
    (userId ipAddress action : String) (metadata : List (String × String))
    (now : Nat) (rand : String) : List (String × String) :=
  let logId := groupId ++ (":") ++ toString now ++ (":") ++ rand
  let base : List (String × String) :=
    [(("logId"), logId), (("groupId"), groupId), (("timestamp"), toString now),
     (("ipAddress"), if ipAddress == ("") then ("unknown") else ipAddress),
     (("userId"), if userId == ("") then ("anonymous") else userId),
     (("action"), if action == ("") then ("access") else action)]
  let entry := metadata.foldl (fun o p => jsAssign o p.1 p.2) base
  match fileId with
  | some f => jsAssign entry ("fileId") f
  | none => entry

/-- An operation on one key of the attempts table: a failed attempt at some
instant (`recordFailedAttempt`) or a reset (`resetAttempts`). -/
inductive AttemptOp where
  | failure (now : Nat)
  | reset
deriving Repr, DecidableEq

/-- Apply one attempt-table operation to the row of a fixed key. -/
def applyAttemptOp (g ip : String) (st : Option AccessAttempt) :
    AttemptOp → Option AccessAttempt
  | AttemptOp.failure now => some (recordFailedAttempt st g ip now)
  | AttemptOp.reset => resetAttempts st

/-- Run a sequence of attempt-table operations for a fixed key starting from
the empty table. -/
def runAttemptOps (g ip : String) (ops : List AttemptOp) : Option AccessAttempt :=
  ops.foldl (applyAttemptOp g ip) none

/-- A run of consecutive `recordFailedAttempt` calls for one key at the given
instants, starting from the empty table. -/
def failTimes (g ip : String) (ts : List Nat) : Option AccessAttempt :=
  ts.foldl (fun st t => some (recordFailedAttempt st g ip t)) none

/-- Modelled from the spec: the spec's wildcard semantics replaces each `*`
with an any-digits group, so the `none` token must consume one or more digit
characters (rather than the code's `.*`, which consumes any characters).
Same fuel discipline as `reMatchF`. -/
def reMatchDigitsF : Nat → List (Option Char) → List Char → Bool
  | 0, _, _ => false
  | _ + 1, [], xs => xs.isEmpty
  | f + 1, some c :: ps, xs =>
      match xs with
      | [] => false
      | x :: xs' => c == x && reMatchDigitsF f ps xs'
  | f + 1, none :: ps, xs =>
      match xs with
      | [] => false
      | x :: xs' => x.isDigit && (reMatchDigitsF f ps xs' || reMatchDigitsF f (none :: ps) xs')

/-- Modelled from the spec: anchored wildcard match with any-digits groups. -/
def wildcardMatchSpec (rule ip : String) : Bool :=
  reMatchDigitsF (rule.length + ip.length + 1) (wildcardTokens rule) ip.toList

/-- A rule list violating every normalization the spec promises: 101 entries,
duplicates, and a malformed entry. -/
def c9badRules : List String := ("not an ip") :: List.replicate 100 ("999.999.999.999")

/-- A concrete stand-in for the external PBKDF2 derivation, used by the
witnesses: an injective pairing of password and salt. -/
def pbFn (p s : String) : String := p ++ ("#") ++ s

/-- The attempt row after five failures at instants 1..5 (used by the C1
witness). -/
def c1rec : AccessAttempt :=
  { attemptId := ("R1:1.2.3.4"), groupId := ("R1"), ipAddress := ("1.2.3.4"),
    attemptCount := 5, firstAttempt := 1, lastAttempt := 5, isLocked := true,
    lockExpiry := some 1800005 }

/-- Concrete environment for the C1 witness: only the attempts row is
populated (the lock check short-circuits before any other read). -/
def c1env : Env :=
  { attempt := some c1rec, group := none, accessInfo := none, ipRestriction := none }

/-- Concrete locked-but-lapsed attempt row for the C3 witness. -/
def c3rec : AccessAttempt :=
  { attemptId := ("R1:1.2.3.4"), groupId := ("R1"), ipAddress := ("1.2.3.4"),
    attemptCount := 5, firstAttempt := 1, lastAttempt := 5, isLocked := true,
    lockExpiry := some 1800005 }

/-- Concrete protected group for the C3 and C4 witnesses. -/
def cGroup : FileGroup :=
  { groupId := ("R1"), isPasswordProtected := true,
    accessPermissionId := ("perm1"), expirationDate := 4000000 }

/-- Concrete salted permission row matching password `Secret123!` under salt
`s1` for the C3 witness. -/
def c3acc : AccessInfo :=
  { permissionId := ("perm1"), expirationDate := 4000000,
    passwordHash := some (pbFn ("Secret123!") ("s1")), passwordSalt := some ("s1") }

/-- Concrete environment for the C3 witness. -/
def c3env : Env :=
  { attempt := some c3rec, group := some cGroup, accessInfo := some c3acc,
    ipRestriction := none }

/-- Concrete legacy permission row for the C4 witness:
`passwordHash = base64("secret")`, no salt. -/
def c4acc : AccessInfo :=
  { permissionId := ("perm1"), expirationDate := 4000000,
    passwordHash := some ("c2VjcmV0"), passwordSalt := none }

/-- Concrete environment for the C4 witness. -/
def c4env : Env :=
  { attempt := none, group := some cGroup, accessInfo := some c4acc,
    ipRestriction := none }

/-- Unfolding `recordFailedAttempt` on an existing row. -/
theorem recordFailedAttempt_some (b : AccessAttempt) (g ip : String) (now : Nat) :
    recordFailedAttempt (some b) g ip now =
      if MAX_LOGIN_ATTEMPTS ≤ b.attemptCount + 1 ∧ b.isLocked = false then
        { b with attemptCount := b.attemptCount + 1, lastAttempt := now,
                 isLocked := true, lockExpiry := some (now + LOCKOUT_DURATION) }
      else
        { b with attemptCount := b.attemptCount + 1, lastAttempt := now } := rfl

/-- Unfolding `recordFailedAttempt` on a missing row. -/
theorem recordFailedAttempt_none (g ip : String) (now : Nat) :
    recordFailedAttempt none g ip now =
      { attemptId := g ++ (":") ++ ip, groupId := g, ipAddress := ip,
        attemptCount := 1, firstAttempt := now, lastAttempt := now,
        isLocked := false, lockExpiry := none } := by
  simp [recordFailedAttempt, MAX_LOGIN_ATTEMPTS]

/-- The lock invariant is preserved by a single operation. -/
theorem applyAttemptOp_lock_inv (g ip : String) (st : Option AccessAttempt)
    (op : AttemptOp)
    (hst : ∀ a, st = some a → (a.isLocked = true ↔ MAX_LOGIN_ATTEMPTS ≤ a.attemptCount)) :
    ∀ a, applyAttemptOp g ip st op = some a →
      (a.isLocked = true ↔ MAX_LOGIN_ATTEMPTS ≤ a.attemptCount) := by
  intro a ha
  cases op with
  | reset => simp [applyAttemptOp, resetAttempts] at ha
  | failure now =>
      simp only [applyAttemptOp, Option.some.injEq] at ha
      subst ha
      cases st with
      | none =>
          rw [recordFailedAttempt_none]
          simp [MAX_LOGIN_ATTEMPTS]
      | some b =>
          have hb := hst b rfl
          rw [recordFailedAttempt_some]
          by_cases hc : MAX_LOGIN_ATTEMPTS ≤ b.attemptCount + 1 ∧ b.isLocked = false
          · rw [if_pos hc]
            simp only [true_iff]
            exact hc.1
          · rw [if_neg hc]
            simp only []
            constructor
            · intro hl
              have := hb.mp hl
              omega
            · intro hl
              cases hbk : b.isLocked with
              | true => rfl
              | false => exact absurd ⟨hl, hbk⟩ hc

/-- The lock invariant holds after folding any operation list over any state
satisfying it. -/
theorem foldAttemptOps_lock_inv (g ip : String) (ops : List AttemptOp) :
    ∀ (st : Option AccessAttempt),
      (∀ a, st = some a → (a.isLocked = true ↔ MAX_LOGIN_ATTEMPTS ≤ a.attemptCount)) →
      ∀ a, ops.foldl (applyAttemptOp g ip) st = some a →
        (a.isLocked = true ↔ MAX_LOGIN_ATTEMPTS ≤ a.attemptCount) := by
  induction ops with
  | nil => intro st hst a ha; exact hst a ha
  | cons op rest ih =>
      intro st hst a ha
      exact ih (applyAttemptOp g ip st op) (applyAttemptOp_lock_inv g ip st op hst) a ha

/-- C8: for every attempt record reachable by a sequence of failure and reset
operations from the empty state, `isLocked` holds iff `attemptCount` has
reached the lockout threshold 5.  A reset deletes the record outright, so an
existing record has had no reset since it was created; hence the invariant
"locked iff the count reached 5 and no reset occurred since" reduces to this
iff on live records. -/
theorem c8_lock_invariant (g ip : String) (ops : List AttemptOp) (r : AccessAttempt)
    (h : runAttemptOps g ip ops = some r) :
    r.isLocked = true ↔ MAX_LOGIN_ATTEMPTS ≤ r.attemptCount :=
  foldAttemptOps_lock_inv g ip ops none (by intro a ha; cases ha) r h

/-- Witness for C8: the record after one failed attempt from the empty state
is unlocked and its count (1) is below the threshold. -/
theorem c8_lock_invariant_witness :
    runAttemptOps ("g") ("1.2.3.4") [AttemptOp.failure 0] =
      some (recordFailedAttempt none ("g") ("1.2.3.4") 0) ∧
    ((recordFailedAttempt none ("g") ("1.2.3.4") 0).isLocked = true ↔
      MAX_LOGIN_ATTEMPTS ≤ (recordFailedAttempt none ("g") ("1.2.3.4") 0).attemptCount) :=
  ⟨rfl, c8_lock_invariant ("g") ("1.2.3.4") [AttemptOp.failure 0] _ rfl⟩

/-- C10: a further failed attempt on an already-locked record increments
`attemptCount` and stamps `lastAttempt`, and changes nothing else: `isLocked`
and `lockExpiry` (and the identity fields) are untouched, so the lockout
window is never extended by failures during an active lock. -/
theorem c10_locked_failure_frame (st : AccessAttempt) (g ip : String) (now : Nat)
    (h : st.isLocked = true) :
    recordFailedAttempt (some st) g ip now =
      { st with attemptCount := st.attemptCount + 1, lastAttempt := now } := by
  simp [recordFailedAttempt, h]

/-- Witness for C10 at a concrete locked record. -/
theorem c10_locked_failure_frame_witness :
    ({ attemptId := ("g:1.2.3.4"), groupId := ("g"), ipAddress := ("1.2.3.4"),
       attemptCount := 5, firstAttempt := 0, lastAttempt := 40, isLocked := true,
       lockExpiry := some 1800040 } : AccessAttempt).isLocked = true ∧
    recordFailedAttempt
        (some { attemptId := ("g:1.2.3.4"), groupId := ("g"), ipAddress := ("1.2.3.4"),
                attemptCount := 5, firstAttempt := 0, lastAttempt := 40, isLocked := true,
                lockExpiry := some 1800040 }) ("g") ("1.2.3.4") 50 =
      { attemptId := ("g:1.2.3.4"), groupId := ("g"), ipAddress := ("1.2.3.4"),
        attemptCount := 6, firstAttempt := 0, lastAttempt := 50, isLocked := true,
        lockExpiry := some 1800040 } :=
  ⟨rfl, c10_locked_failure_frame
      { attemptId := ("g:1.2.3.4"), groupId := ("g"), ipAddress := ("1.2.3.4"),
        attemptCount := 5, firstAttempt := 0, lastAttempt := 40, isLocked := true,
        lockExpiry := some 1800040 } ("g") ("1.2.3.4") 50 rfl⟩

/-- C1: from no prior record, five consecutive `recordFailedAttempt` calls
yield a locked record with `lockExpiry` exactly 30 minutes after the fifth
failure's timestamp, and while that record is stored and the current time is
before `lockExpiry`, `verifyFileAccess` denies with the locked message,
`remainingAttempts = 0` and the stored lock expiry, for every supplied
password (the lock check precedes and short-circuits any password
comparison). -/
theorem c1_five_failures_lock_then_deny (g ip password : String)
    (t1 t2 t3 t4 t5 now : Nat) (pb : String → String → String)
    (freshSalt : String) (persistOk : Bool) (env : Env) (r : AccessAttempt)
    (hr : failTimes g ip [t1, t2, t3, t4, t5] = some r)
    (hatt : env.attempt = some r)
    (hnow : now < t5 + LOCKOUT_DURATION) :
    r.isLocked = true ∧ r.attemptCount = 5 ∧
      r.lockExpiry = some (t5 + LOCKOUT_DURATION) ∧
      verifyFileAccess pb freshSalt persistOk env g password ip now =
        { result := { success := false, message := MSG_LOCKED,
                      lockExpiry := some (t5 + LOCKOUT_DURATION),
                      remainingAttempts := some 0, isLocked := some true,
                      groupInfo := none },
          attemptAfter := env.attempt, accessInfoAfter := env.accessInfo } := by
  have hr' : failTimes g ip [t1, t2, t3, t4, t5] = some
      { attemptId := g ++ (":") ++ ip, groupId := g, ipAddress := ip,
        attemptCount := 5, firstAttempt := t1, lastAttempt := t5,
        isLocked := true, lockExpiry := some (t5 + LOCKOUT_DURATION) } := by
    simp [failTimes, recordFailedAttempt_none, recordFailedAttempt_some,
      MAX_LOGIN_ATTEMPTS]
  rw [hr'] at hr
  injection hr with hr
  subst hr
  refine ⟨rfl, rfl, rfl, ?_⟩
  simp [verifyFileAccess, hatt, hnow]

/-- Witness for C1 at concrete inputs: times 1..5, lock expiry 1800005,
verification at time 6 with an arbitrary password. -/
theorem c1_five_failures_lock_then_deny_witness :
    failTimes ("R1") ("1.2.3.4") [1, 2, 3, 4, 5] = some c1rec ∧
    c1env.attempt = some c1rec ∧ (6 : Nat) < 5 + LOCKOUT_DURATION ∧
    (c1rec.isLocked = true ∧ c1rec.attemptCount = 5 ∧
      c1rec.lockExpiry = some (5 + LOCKOUT_DURATION) ∧
      verifyFileAccess pbFn ("fs") true c1env ("R1") ("Secret123!") ("1.2.3.4") 6 =
        { result := { success := false, message := MSG_LOCKED,
                      lockExpiry := some (5 + LOCKOUT_DURATION),
                      remainingAttempts := some 0, isLocked := some true,
                      groupInfo := none },
          attemptAfter := c1env.attempt, accessInfoAfter := c1env.accessInfo }) :=
  ⟨by decide, rfl, by decide,
    c1_five_failures_lock_then_deny ("R1") ("1.2.3.4") ("Secret123!") 1 2 3 4 5 6
      pbFn ("fs") true c1env c1rec (by decide) rfl (by decide)⟩

/-- C3: when the stored attempt row is locked but the lock has lapsed
(current time at or after `lockExpiry`), a `verifyFileAccess` call with the
correct password succeeds and leaves the attempts row deleted, so a
subsequent failed attempt starts a fresh record with `attemptCount = 1`
(and unlocked), not a continuation of the old count. -/
theorem c3_lapsed_lock_reset_and_success (pb : String → String → String)
    (freshSalt : String) (persistOk : Bool) (env : Env)
    (g password ip : String) (now e : Nat) (r : AccessAttempt)
    (group : FileGroup) (acc : AccessInfo) (s : String)
    (hatt : env.attempt = some r) (hlock : r.isLocked = true)
    (hexp : r.lockExpiry = some e) (hlapse : e ≤ now)
    (hip : checkIpRestriction env.group env.ipRestriction ip = true)
    (hgrp : env.group = some group) (hprot : group.isPasswordProtected = true)
    (hacc : env.accessInfo = some acc)
    (hhash : acc.passwordHash = some (pb password s))
    (hsalt : acc.passwordSalt = some s)
    (hnotexp : now ≤ acc.expirationDate) (hpw : password ≠ ("")) :
    (verifyFileAccess pb freshSalt persistOk env g password ip now).result.success = true ∧
    (verifyFileAccess pb freshSalt persistOk env g password ip now).attemptAfter = none ∧
    ∀ t, recordFailedAttempt
        (verifyFileAccess pb freshSalt persistOk env g password ip now).attemptAfter g ip t =
      { attemptId := g ++ (":") ++ ip, groupId := g, ipAddress := ip,
        attemptCount := 1, firstAttempt := t, lastAttempt := t,
        isLocked := false, lockExpiry := none } := by
  have hnl : ¬ now < e := not_lt.mpr hlapse
  have hne : ¬ acc.expirationDate < now := not_lt.mpr hnotexp
  have hip' : checkIpRestriction (some group) env.ipRestriction ip = true := by
    rw [← hgrp]; exact hip
  have hout : verifyFileAccess pb freshSalt persistOk env g password ip now =
      { result := allowResult MSG_ALLOWED group, attemptAfter := none,
        accessInfoAfter := some acc } := by
    simp [verifyFileAccess, verifyFileAccessBody, hatt, hlock, hexp, hip', hgrp,
      hprot, hacc, hhash, hsalt, hnl, hne, hpw, verifyPassword, resetAttempts]
  refine ⟨by simp [hout, allowResult], by rw [hout], ?_⟩
  intro t
  rw [hout]
  exact recordFailedAttempt_none g ip t

/-- Witness for C3 at a lapsed lock (verification exactly at the expiry
instant) with the correct password, followed by one failure at time 7. -/
theorem c3_lapsed_lock_reset_and_success_witness :
    (verifyFileAccess pbFn ("fs") true c3env ("R1") ("Secret123!") ("1.2.3.4")
        1800005).result.success = true ∧
    (verifyFileAccess pbFn ("fs") true c3env ("R1") ("Secret123!") ("1.2.3.4")
        1800005).attemptAfter = none ∧
    recordFailedAttempt
        (verifyFileAccess pbFn ("fs") true c3env ("R1") ("Secret123!") ("1.2.3.4")
          1800005).attemptAfter ("R1") ("1.2.3.4") 7 =
      { attemptId := ("R1") ++ (":") ++ ("1.2.3.4"), groupId := ("R1"),
        ipAddress := ("1.2.3.4"), attemptCount := 1, firstAttempt := 7,
        lastAttempt := 7, isLocked := false, lockExpiry := none } :=
  have h := c3_lapsed_lock_reset_and_success pbFn ("fs") true c3env ("R1")
    ("Secret123!") ("1.2.3.4") 1800005 1800005 c3rec cGroup c3acc ("s1")
    rfl rfl rfl (by decide) (by decide) rfl rfl rfl rfl rfl (by decide) (by decide)
  ⟨h.1, h.2.1, h.2.2 7⟩

/-- C4: for a stored permission row with a `passwordHash` but no
`passwordSalt` (legacy base64 format), `verifyFileAccess` with a password
whose base64 encoding equals the stored hash succeeds; the row is rewritten
to the salted format via `hashPassword`; when the rewrite write fails the
returned result is the same success and the row is left unchanged; and
after a successful rewrite an identical call succeeds via the salted path. -/
theorem c4_legacy_base64_upgrade (pb : String → String → String)
    (freshSalt : String) (env : Env) (g password ip : String) (now : Nat)
    (group : FileGroup) (acc : AccessInfo) (h : String)
    (hatt : env.attempt = none)
    (hip : checkIpRestriction env.group env.ipRestriction ip = true)
    (hgrp : env.group = some group) (hprot : group.isPasswordProtected = true)
    (hacc : env.accessInfo = some acc)
    (hhash : acc.passwordHash = some h) (hsalt : acc.passwordSalt = none)
    (hb64 : base64OfString password = h)
    (hnotexp : now ≤ acc.expirationDate) (hpw : password ≠ ("")) :
    (verifyFileAccess pb freshSalt true env g password ip now).result.success = true ∧
    (verifyFileAccess pb freshSalt true env g password ip now).accessInfoAfter =
      some { acc with passwordHash := some (pb password freshSalt),
                      passwordSalt := some freshSalt } ∧
    (verifyFileAccess pb freshSalt false env g password ip now).result =
      (verifyFileAccess pb freshSalt true env g password ip now).result ∧
    (verifyFileAccess pb freshSalt false env g password ip now).accessInfoAfter =
      some acc ∧
    ∀ freshSalt2 persistOk2,
      (verifyFileAccess pb freshSalt2 persistOk2
          { env with
              attempt := (verifyFileAccess pb freshSalt true env g password ip now).attemptAfter,
              accessInfo := (verifyFileAccess pb freshSalt true env g password ip now).accessInfoAfter }
          g password ip now).result.success = true := by
  have hne : ¬ acc.expirationDate < now := not_lt.mpr hnotexp
  have hip' : checkIpRestriction (some group) env.ipRestriction ip = true := by
    rw [← hgrp]; exact hip
  have houtT : verifyFileAccess pb freshSalt true env g password ip now =
      { result := allowResult MSG_ALLOWED group, attemptAfter := none,
        accessInfoAfter := some
          { acc with passwordHash := some (pb password freshSalt),
                     passwordSalt := some freshSalt } } := by
    simp [verifyFileAccess, verifyFileAccessBody, hatt, hip', hgrp, hprot, hacc,
      hhash, hsalt, hb64, hne, hpw, hashPassword, resetAttempts]
  have houtF : verifyFileAccess pb freshSalt false env g password ip now =
      { result := allowResult MSG_ALLOWED group, attemptAfter := none,
        accessInfoAfter := some acc } := by
    simp [verifyFileAccess, verifyFileAccessBody, hatt, hip', hgrp, hprot, hacc,
      hhash, hsalt, hb64, hne, hpw, hashPassword, resetAttempts]
  refine ⟨by simp [houtT, allowResult], by rw [houtT], by rw [houtT, houtF],
    by rw [houtF], ?_⟩
  intro freshSalt2 persistOk2
  rw [houtT]
  simp [verifyFileAccess, verifyFileAccessBody, hgrp, hprot, hne, hpw,
    verifyPassword, resetAttempts, allowResult, hip, hip']

/-- Witness for C4: legacy row storing `base64("secret") = "c2VjcmV0"`,
verified with password `secret`; upgrade salt `ns1`; second call after the
rewrite with a different fresh salt. -/
theorem c4_legacy_base64_upgrade_witness :
    (verifyFileAccess pbFn ("ns1") true c4env ("R1") ("secret") ("1.2.3.4")
        100).result.success = true ∧
    (verifyFileAccess pbFn ("ns1") true c4env ("R1") ("secret") ("1.2.3.4")
        100).accessInfoAfter =
      some { c4acc with passwordHash := some (pbFn ("secret") ("ns1")),
                        passwordSalt := some ("ns1") } ∧
    (verifyFileAccess pbFn ("ns1") false c4env ("R1") ("secret") ("1.2.3.4")
        100).result =
      (verifyFileAccess pbFn ("ns1") true c4env ("R1") ("secret") ("1.2.3.4")
        100).result ∧
    (verifyFileAccess pbFn ("ns1") false c4env ("R1") ("secret") ("1.2.3.4")
        100).accessInfoAfter = some c4acc ∧
    (verifyFileAccess pbFn ("ns2") true
        { c4env with
            attempt := (verifyFileAccess pbFn ("ns1") true c4env ("R1") ("secret")
              ("1.2.3.4") 100).attemptAfter,
            accessInfo := (verifyFileAccess pbFn ("ns1") true c4env ("R1") ("secret")
              ("1.2.3.4") 100).accessInfoAfter }
        ("R1") ("secret") ("1.2.3.4") 100).result.success = true :=
  have h := c4_legacy_base64_upgrade pbFn ("ns1") c4env ("R1") ("secret")
    ("1.2.3.4") 100 cGroup c4acc ("c2VjcmV0")
    rfl (by decide) rfl rfl rfl rfl rfl (by decide) (by decide) (by decide)
  ⟨h.1, h.2.1, h.2.2.1, h.2.2.2.1, h.2.2.2.2 ("ns2") true⟩

/-- C6: verifying a password against the hash produced for it under the same
salt succeeds, and verifying any other password fails, given that the
external PBKDF2 derivation does not collide on the two passwords at that
salt (the derivation is external library code; distinctness of its digests
is the standard ideal-KDF assumption the claim relies on). -/
theorem c6_hash_verify_roundtrip (pb : String → String → String)
    (p s freshSalt p' : String) (_hne : p' ≠ p) (hcoll : pb p' s ≠ pb p s) :
    verifyPassword pb p (hashPassword pb p (some s) freshSalt).hash s = true ∧
    verifyPassword pb p' (hashPassword pb p (some s) freshSalt).hash s = false := by
  constructor
  · simp [verifyPassword, hashPassword]
  · simp only [verifyPassword, hashPassword, Option.getD_some, beq_eq_false_iff_ne]
    exact fun h => hcoll h.symm

/-- Witness for C6 with a concrete injective derivation and passwords
`alpha` versus `beta` under salt `s1`. -/
theorem c6_hash_verify_roundtrip_witness :
    ("beta") ≠ ("alpha") ∧ pbFn ("beta") ("s1") ≠ pbFn ("alpha") ("s1") ∧
    (verifyPassword pbFn ("alpha")
        (hashPassword pbFn ("alpha") (some ("s1")) ("f")).hash ("s1") = true ∧
      verifyPassword pbFn ("beta")
        (hashPassword pbFn ("alpha") (some ("s1")) ("f")).hash ("s1") = false) :=
  ⟨by decide, by decide,
    c6_hash_verify_roundtrip pbFn ("alpha") ("s1") ("f") ("beta")
      (by decide) (by decide)⟩

/-- C7 counterexample: `verifyPassword` has no exception handler, so with a
non-string salt (the very situation the claim covers: "inputs that make the
underlying derivation raise an exception") the `TypeError` thrown by
`crypto.pbkdf2Sync` propagates — the call does not return a boolean at all,
let alone `false`. -/
theorem c7_counterexample :
    verifyPasswordE pbFn ("secret") ("deadbeef") none = Except.error ("TypeError") ∧
    verifyPasswordE pbFn ("secret") ("deadbeef") none ≠ Except.ok false ∧
    verifyPasswordE pbFn ("secret") ("deadbeef") none ≠ Except.ok true := by
  refine ⟨rfl, ?_, ?_⟩
  · intro h
    simp [verifyPasswordE, pbkdf2SyncE] at h
  · intro h
    simp [verifyPasswordE, pbkdf2SyncE] at h

/-- C7 as amended: with a string salt, `verifyPassword` returns the boolean
comparison of the stored hash with the re-derived digest and cannot throw;
an exception raised by the derivation itself (non-string salt) propagates to
the caller instead of yielding `false`. -/
theorem c7_verify_exception_propagates (pb : String → String → String)
    (password hash s : String) :
    verifyPasswordE pb password hash (some s) = Except.ok (hash == pb password s) ∧
    verifyPasswordE pb password hash none = Except.error ("TypeError") :=
  ⟨rfl, rfl⟩

/-- C9 counterexample: `updateIpRestrictions` persists the supplied rule list
verbatim — 101 rules (over the documented cap of 100), with duplicates kept
and a malformed entry kept. -/
theorem c9_counterexample :
    (updateIpRestrictions ("p1")
        { enabled := some true, allowedIps := some c9badRules } 0).allowedIps =
      c9badRules ∧
    c9badRules.length = 101 ∧
    c9badRules.get? 1 = some ("999.999.999.999") ∧
    c9badRules.get? 2 = some ("999.999.999.999") ∧
    ("not an ip") ∈ c9badRules := by
  refine ⟨rfl, by decide, by decide, by decide, by decide⟩

/-- C9 as amended: `updateIpRestrictions` writes the given rule list verbatim
with no validation, deduplication or cap, defaulting `enabled` to `false`
and `allowedIps` to the empty list when absent; the update always succeeds. -/
theorem c9_rules_persisted_verbatim (pid : String) (enabled : Option Bool)
    (rules : List String) (now : Nat) :
    (updateIpRestrictions pid { enabled := enabled, allowedIps := some rules }
        now).allowedIps = rules ∧
    (updateIpRestrictions pid { enabled := enabled, allowedIps := none }
        now).allowedIps = [] ∧
    (updateIpRestrictions pid { enabled := none, allowedIps := some rules }
        now).enabled = false ∧
    (updateIpRestrictions pid { enabled := some true, allowedIps := some rules }
        now).enabled = true ∧
    (updateIpRestrictions pid { enabled := enabled, allowedIps := some rules }
        now).permissionId = pid :=
  ⟨rfl, rfl, rfl, rfl, rfl⟩

/-- C5 counterexample: the claim describes the wildcard as an any-digits
group per `*`, but the code builds `.*` (any characters): on the rule
`192.168.*.*` the requester `192.168.ab.cd` is allowed by the code while the
claimed any-digits semantics rejects it. -/
theorem c5_counterexample :
    ipMatchesRule ("192.168.ab.cd") ("192.168.*.*") = true ∧
    wildcardMatch ("192.168.*.*") ("192.168.ab.cd") = true ∧
    wildcardMatchSpec ("192.168.*.*") ("192.168.ab.cd") = false ∧
    isAllowed ("192.168.ab.cd") [("192.168.*.*")] = true := by
  refine ⟨by decide, by decide, by decide, by decide⟩

/-- C5 as amended: per-rule precedence is exact equality, then CIDR
(unsigned 32-bit conversion and comparison under the mask
`(-1) << (32 - prefixLen)`), then wildcard with each `*` replaced by an
any-characters group (`.*`, not any-digits) and anchor-matched; a disabled
restriction record or an empty rule list allows every requester; and the
claim's concrete examples hold:
`isAllowed("192.168.1.42", ["192.168.1.0/24"]) = true`,
`isAllowed("10.0.0.1", ["192.168.1.0/24"]) = false`,
`isAllowed("192.168.5.9", ["192.168.*.*"]) = true`. -/
theorem c5_ip_matching (ip0 : String) (r0 : IpRestriction) (rules0 : List String)
    (hdis : r0.enabled = false) (hmem : ip0 ∈ rules0) :
    isAllowed ("192.168.1.42") [("192.168.1.0/24")] = true ∧
    isAllowed ("10.0.0.1") [("192.168.1.0/24")] = false ∧
    isAllowed ("192.168.5.9") [("192.168.*.*")] = true ∧
    isAllowed ("192.168.ab.cd") [("192.168.*.*")] = true ∧
    checkIpRules (some r0) ip0 = true ∧
    (∀ r1 : IpRestriction, r1.allowedIps = [] → checkIpRules (some r1) ip0 = true) ∧
    isAllowed ip0 rules0 = true := by
  refine ⟨by decide, by decide, by decide, by decide, ?_, ?_, ?_⟩
  · simp [checkIpRules, hdis]
  · intro r1 hr1
    simp [checkIpRules, hr1]
  · have hne : rules0.isEmpty = false := by
      cases rules0 with
      | nil => cases hmem
      | cons a l => rfl
    simp only [isAllowed, checkIpRules, hne, Bool.false_eq_true, if_false,
      Bool.true_eq_false]
    exact List.any_eq_true.mpr ⟨ip0, hmem, by simp [ipMatchesRule]⟩

/-- Witness for C5 at a disabled restriction, an empty rule list, and an
exact-match rule. -/
theorem c5_ip_matching_witness :
    ({ permissionId := ("p"), enabled := false, allowedIps := [("10.0.0.0/8")], updatedAt := 0 } : IpRestriction).enabled = false ∧
    ("9.9.9.9") ∈ [("8.8.8.8"), ("9.9.9.9")] ∧
    (checkIpRules
        (some { permissionId := ("p"), enabled := false, allowedIps := [("10.0.0.0/8")], updatedAt := 0 })
        ("9.9.9.9") = true ∧
      (∀ r1 : IpRestriction, r1.allowedIps = [] →
        checkIpRules (some r1) ("9.9.9.9") = true) ∧
      isAllowed ("9.9.9.9") [("8.8.8.8"), ("9.9.9.9")] = true) :=
  have h := c5_ip_matching ("9.9.9.9")
    { permissionId := ("p"), enabled := false, allowedIps := [("10.0.0.0/8")], updatedAt := 0 }
    [("8.8.8.8"), ("9.9.9.9")] rfl (by decide)
  ⟨rfl, by decide, h.2.2.2.2.1, h.2.2.2.2.2.1, h.2.2.2.2.2.2⟩

/-- C2 counterexample: `recordAccessLog` persists the `password` metadata
key verbatim and stores the requester IP unmasked (no `.xxx` suffix). -/
theorem c2_counterexample :
    (recordAccessLog ("g1") none ("u1") ("203.0.113.7") ("verify")
        [(("password"), ("hunter2"))] 1000 ("r4nd")).lookup ("password") =
      some ("hunter2") ∧
    (recordAccessLog ("g1") none ("u1") ("203.0.113.7") ("verify")
        [(("password"), ("hunter2"))] 1000 ("r4nd")).lookup ("ipAddress") =
      some ("203.0.113.7") := by
  refine ⟨by decide, by decide⟩

/-- `List.lookup` of a key is unchanged by assigning a different key. -/
theorem lookup_jsAssign_ne (o : List (String × String)) (k v k' : String)
    (h : k' ≠ k) : (jsAssign o k v).lookup k' = o.lookup k' := by
  have hk : (k' == k) = false := beq_eq_false_iff_ne.mpr h
  induction o with
  | nil => simp [jsAssign, List.lookup, hk]
  | cons p rest ih =>
      obtain ⟨pk, pv⟩ := p
      by_cases hp : pk == k
      · have hpk : pk = k := eq_of_beq hp
        subst hpk
        simp [jsAssign, List.lookup, hk]
      · simp [jsAssign, hp, List.lookup, ih]

/-- The assigned key is among the keys after a `jsAssign`. -/
theorem mem_keys_jsAssign_self (o : List (String × String)) (k v : String) :
    k ∈ (jsAssign o k v).map Prod.fst := by
  induction o with
  | nil => simp [jsAssign]
  | cons p rest ih =>
      by_cases hp : p.1 == k
      · simp [jsAssign, hp]
      · simp only [jsAssign, hp, Bool.false_eq_true, if_false, List.map_cons,
          List.mem_cons]
        exact Or.inr ih

/-- Existing keys survive a `jsAssign`. -/
theorem mem_keys_jsAssign_mono (o : List (String × String)) (k v a : String)
    (ha : a ∈ o.map Prod.fst) : a ∈ (jsAssign o k v).map Prod.fst := by
  induction o with
  | nil => simp at ha
  | cons p rest ih =>
      by_cases hp : p.1 == k
      · have hpk : p.1 = k := eq_of_beq hp
        simp only [List.map_cons, List.mem_cons] at ha
        simp only [jsAssign, hp, if_true, List.map_cons, List.mem_cons]
        rcases ha with h1 | h2
        · exact Or.inl (h1.trans hpk)
        · exact Or.inr h2
      · simp only [List.map_cons, List.mem_cons] at ha
        simp only [jsAssign, hp, Bool.false_eq_true, if_false, List.map_cons,
          List.mem_cons]
        rcases ha with h1 | h2
        · exact Or.inl h1
        · exact Or.inr (ih h2)

/-- `List.lookup` of a key none of the metadata pairs carries is unchanged
by folding the metadata assignments. -/
theorem lookup_foldl_jsAssign_ne (md : List (String × String)) (k' : String)
    (h : ∀ p ∈ md, p.1 ≠ k') :
    ∀ o : List (String × String),
      (md.foldl (fun o q => jsAssign o q.1 q.2) o).lookup k' = o.lookup k' := by
  induction md with
  | nil => intro o; rfl
  | cons q rest ih =>
      intro o
      have hq : q.1 ≠ k' := h q (by simp)
      rw [List.foldl_cons, ih (fun p hp => h p (by simp [hp])) (jsAssign o q.1 q.2),
        lookup_jsAssign_ne o q.1 q.2 k' (Ne.symm hq)]

/-- Existing keys survive folding the metadata assignments. -/
theorem mem_keys_foldl_jsAssign_mono (md : List (String × String)) (a : String) :
    ∀ o, a ∈ o.map Prod.fst →
      a ∈ (md.foldl (fun o q => jsAssign o q.1 q.2) o).map Prod.fst := by
  induction md with
  | nil => intro o h; exact h
  | cons q rest ih =>
      intro o h
      exact ih (jsAssign o q.1 q.2) (mem_keys_jsAssign_mono o q.1 q.2 a h)

/-- Every metadata key is among the keys after folding the metadata
assignments. -/
theorem mem_keys_foldl_jsAssign (md : List (String × String)) (p : String × String) :
    p ∈ md → ∀ o, p.1 ∈ (md.foldl (fun o q => jsAssign o q.1 q.2) o).map Prod.fst := by
  induction md with
  | nil => intro hp; cases hp
  | cons q rest ih =>
      intro hp o
      rcases List.mem_cons.mp hp with h1 | h2
      · subst h1
        exact mem_keys_foldl_jsAssign_mono rest p.1 (jsAssign o p.1 p.2)
          (mem_keys_jsAssign_self o p.1 p.2)
      · exact ih h2 (jsAssign o q.1 q.2)

/-- C2 as amended: `recordAccessLog` performs no sensitive-key stripping and
no IP masking — every metadata key is persisted verbatim in the entry
(spread after the base fields), and the stored `ipAddress` is the raw
requester IP (`unknown` only when the input is absent). -/
theorem c2_metadata_and_ip_persisted_verbatim (g : String) (fileId : Option String)
    (u ip act : String) (md : List (String × String)) (now : Nat) (rand : String)
    (hip : ip ≠ ("")) (hmd : ∀ p ∈ md, p.1 ≠ ("ipAddress")) :
    (recordAccessLog g fileId u ip act md now rand).lookup ("ipAddress") = some ip ∧
    ∀ p ∈ md, p.1 ∈ (recordAccessLog g fileId u ip act md now rand).map Prod.fst := by
  have hbeq : (ip == ("")) = false := beq_eq_false_iff_ne.mpr hip
  constructor
  · cases fileId with
    | some f =>
        simp only [recordAccessLog]
        rw [lookup_jsAssign_ne _ _ _ _ (by decide)]
        rw [lookup_foldl_jsAssign_ne md ("ipAddress") hmd]
        simp [List.lookup, hbeq]
    | none =>
        simp only [recordAccessLog]
        rw [lookup_foldl_jsAssign_ne md ("ipAddress") hmd]
        simp [List.lookup, hbeq]
  · intro p hp
    cases fileId with
    | some f =>
        simp only [recordAccessLog]
        exact mem_keys_jsAssign_mono _ _ _ _ (mem_keys_foldl_jsAssign md p hp _)
    | none =>
        simp only [recordAccessLog]
        exact mem_keys_foldl_jsAssign md p hp _

/-- Witness for C2 as amended: a `password` metadata key survives into the
persisted entry and the IP is stored raw. -/
theorem c2_metadata_and_ip_persisted_verbatim_witness :
    ("9.9.9.9") ≠ ("") ∧
    (recordAccessLog ("g2") (some ("f1")) ("u2") ("9.9.9.9") ("download")
        [(("password"), ("pw"))] 42 ("zz")).lookup ("ipAddress") = some ("9.9.9.9") ∧
    ("password") ∈ (recordAccessLog ("g2") (some ("f1")) ("u2") ("9.9.9.9")
        ("download") [(("password"), ("pw"))] 42 ("zz")).map Prod.fst :=
  have h := c2_metadata_and_ip_persisted_verbatim ("g2") (some ("f1")) ("u2")
    ("9.9.9.9") ("download") [(("password"), ("pw"))] 42 ("zz")
    (by decide) (by decide)
  ⟨by decide, h.1, h.2 (("password"), ("pw")) (by decide)⟩
